import Mathlib

/-!
A shallow embedding of the user-account service in
`py-api/backend/app` (auth.py, db_helpers.py, dependencies.py,
routers/auth.py), together with proofs about its account lifecycle,
lockout state machine, password-history policy and token handling.

Modelling conventions:
* Timestamps (`datetime.utcnow()`) are natural numbers (seconds).
  Each operation takes the current instant `now` as an argument.
* A bcrypt digest is `Digest.bc salt pw`: the result of
  `bcrypt.hashpw(pw, salt)`.  `bcrypt.gensalt()` draws a fresh random
  salt, so functions that call `hash_password` take the drawn salt as
  an explicit argument.  Strings that do not parse as bcrypt hashes
  are `Digest.malformed`; `bcrypt.checkpw` raises
  ValueError (modelled as `Except.error`) on those.
* The MongoDB `users` collection is a `List Account`; `find_one`
  is `List.find?`, `update_one` with `$set` is a map over the
  matching ids (account ids are assumed unique, as Mongo `_id` is).
* FastAPI `HTTPException` values are the `HErr` error type; an
  uncaught Python exception escaping a route is `HErr.pythonError`.
* `BackgroundTasks.add_task` appends to a returned list of
  `Notification`s (fire-and-forget email dispatch).
-/

deriving instance DecidableEq for Except

namespace AccountService

/-- Model of Python `str.lower()` (used for email normalization). -/
def pyLower (s : String) : String :=
  String.mk (s.data.map Char.toLower)

/-- Model of Python `str.strip()`: leading and trailing whitespace
removed. -/
def pyStrip (s : String) : String :=
  String.mk
    (((s.data.dropWhile Char.isWhitespace).reverse.dropWhile
        Char.isWhitespace).reverse)

/-- A bcrypt digest: `bc salt pw` is `bcrypt.hashpw(pw, salt)` for a
well-formed salt; `malformed raw` is any byte string that does not
parse as a bcrypt hash. -/
inductive Digest where
  | bc (salt : Nat) (pw : String)
  | malformed (raw : String)
deriving DecidableEq

/-- Model of `bcrypt.checkpw(plain, digest)` (pyca/bcrypt): re-hashes
`plain` under the salt embedded in `digest` and compares; raises
ValueError (Invalid salt) when `digest` does not parse as a bcrypt
hash. -/
def bcrypt_checkpw (plain : String) (digest : Digest) : Except String Bool :=
  match digest with
  | .bc _ pw => .ok (pw == plain)
  | .malformed _ => .error ("ValueError: Invalid salt")

/-- app/auth.py `hash_password`: `bcrypt.hashpw(password, bcrypt.gensalt())`;
the freshly drawn salt is the explicit `salt` argument. -/
def hash_password (password : String) (salt : Nat) : Digest :=
  Digest.bc salt password

/-- app/auth.py `verify_password`: calls `bcrypt.checkpw` directly, with
no try/except, so a ValueError from a malformed digest propagates. -/
def verify_password (plain_password : String) (hashed_password : Digest) :
    Except String Bool :=
  bcrypt_checkpw plain_password hashed_password

/-- JWT payload: the `data` dict (`sub`, `email`) plus the `exp` and
`type` claims added by the token creators. -/
structure JwtClaims where
  sub : Option String
  email : Option String
  exp : Nat
  type : String
deriving DecidableEq

/-- A JWT string: either a well-formed token signed with `key`, or a
string that does not decode at all. -/
inductive Token where
  | signed (claims : JwtClaims) (key : String)
  | garbage (raw : String)
deriving DecidableEq

/-- app/database.py `Settings` (the JWT-relevant fields; the store /
SMTP / rate-limit settings play no role in the verified claims). -/
structure Settings where
  jwt_secret_key : String
  jwt_algorithm : String
  jwt_access_token_expire_minutes : Nat
  jwt_refresh_token_expire_days : Nat
deriving DecidableEq

/-- The `data` dict passed to the token creators. -/
structure JwtData where
  sub : Option String
  email : Option String
deriving DecidableEq

/-- Model of `jose.jwt.decode`: raises JWTError when the signature
does not verify under the expected key, and ExpiredSignatureError (a
JWTError) when the `exp` claim is strictly before the current
instant. -/
def jwt_decode (secret : String) (now : Nat) (t : Token) :
    Except String JwtClaims :=
  match t with
  | .garbage _ => .error ("JWTError: Not enough segments")
  | .signed claims key =>
    if key ≠ secret then .error ("JWTError: Signature verification failed")
    else if claims.exp < now then .error ("ExpiredSignatureError")
    else .ok claims

/-- app/auth.py `create_access_token`: payload = data plus
`exp = now + expires_delta` (default: the configured access-token
minutes) and `type = "access"`, signed with the configured secret. -/
def create_access_token (s : Settings) (now : Nat) (data : JwtData)
    (expires_delta : Option Nat) : Token :=
  let expire := match expires_delta with
    | some d => now + d
    | none => now + s.jwt_access_token_expire_minutes * 60
  Token.signed { sub := data.sub, email := data.email, exp := expire, type := "access" }
    s.jwt_secret_key

/-- app/auth.py `create_refresh_token`: expiry is the configured
refresh-token days from now, `type = "refresh"`. -/
def create_refresh_token (s : Settings) (now : Nat) (data : JwtData) : Token :=
  Token.signed
    { sub := data.sub, email := data.email,
      exp := now + s.jwt_refresh_token_expire_days * 86400, type := "refresh" }
    s.jwt_secret_key

/-- app/auth.py `verify_token`: decodes inside try/except JWTError
(returning None on any decode failure), then returns None when the
`type` claim differs from `token_type`. -/
def verify_token (s : Settings) (now : Nat) (token : Token)
    (token_type : String) : Option JwtClaims :=
  match jwt_decode s.jwt_secret_key now token with
  | .error _ => none
  | .ok payload => if payload.type ≠ token_type then none else some payload

/-- app/models.py `PasswordHistory`: one retired digest with the
instant it was retired. -/
structure PasswordHistoryEntry where
  hashed_password : Digest
  changed_at : Nat
deriving DecidableEq

/-- app/models.py `User` / the MongoDB user document. -/
structure Account where
  id : Nat
  first_name : String
  last_name : String
  date_of_birth : Nat
  email : String
  phone_number : String
  hashed_password : Digest
  is_active : Bool
  is_locked : Bool
  failed_login_attempts : Nat
  last_failed_login : Option Nat
  password_history : List PasswordHistoryEntry
  activation_token : Option String
  activation_token_expires : Option Nat
  reset_password_token : Option String
  reset_password_token_expires : Option Nat
  created_at : Nat
  updated_at : Nat
deriving DecidableEq

/-- The `users` collection. -/
abbrev Db := List Account

/-- db_helpers `get_user_by_email`: `find_one({"email": email.lower()})`. -/
def get_user_by_email (db : Db) (email : String) : Option Account :=
  db.find? (fun u => u.email == pyLower email)

/-- db_helpers `get_user_by_id`: `find_one({"_id": ObjectId(user_id)})`
(ids in the model are well-formed, so the `ObjectId.is_valid` guard
never fires). -/
def get_user_by_id (db : Db) (user_id : Nat) : Option Account :=
  db.find? (fun u => u.id == user_id)

/-- db_helpers `get_user_by_phone`. -/
def get_user_by_phone (db : Db) (phone_number : String) : Option Account :=
  db.find? (fun u => u.phone_number == phone_number)

/-- db_helpers `update_user`: `update_one({"_id": id}, {"$set": ...})`,
always also setting `updated_at`; returns `modified_count > 0`,
modelled as whether some document matched the id. -/
def update_user (db : Db) (now : Nat) (user_id : Nat) (f : Account → Account) :
    Bool × Db :=
  (db.any (fun u => u.id == user_id),
   db.map (fun u => if u.id == user_id then { f u with updated_at := now } else u))

/-- db_helpers `activate_user`: sets `is_active` and clears the
activation token and its expiry. -/
def activate_user (db : Db) (now : Nat) (user_id : Nat) : Bool × Db :=
  update_user db now user_id (fun u =>
    { u with is_active := true, activation_token := none,
             activation_token_expires := none })

/-- db_helpers `lock_user_account` (imported by the auth router but
never called from any route). -/
def lock_user_account (db : Db) (now : Nat) (user_id : Nat) : Bool × Db :=
  update_user db now user_id (fun u => { u with is_locked := true })

/-- db_helpers `unlock_user_account`: the explicit (administrative)
unlock — clears the flag, resets the counter, clears the last-failure
timestamp. -/
def unlock_user_account (db : Db) (now : Nat) (user_id : Nat) : Bool × Db :=
  update_user db now user_id (fun u =>
    { u with is_locked := false, failed_login_attempts := 0,
             last_failed_login := none })

/-- Result dict of `increment_failed_login_attempts`.  (In the
source, the not-found branch returns a dict with only a `success`
key; the model supplies defaults for the missing keys, which the
login route never reads on that branch in a sequential run.) -/
structure IncResult where
  success : Bool
  attempts : Nat
  is_locked : Bool
deriving DecidableEq

/-- db_helpers `increment_failed_login_attempts`: re-reads the user,
computes `new_attempts = old + 1`, and writes the new counter,
`last_failed_login`, and — in the same `$set` — `is_locked = True`
when `new_attempts >= 3`. -/
def increment_failed_login_attempts (db : Db) (now : Nat) (user_id : Nat) :
    IncResult × Db :=
  match get_user_by_id db user_id with
  | none => ({ success := false, attempts := 0, is_locked := false }, db)
  | some user =>
    let new_attempts := user.failed_login_attempts + 1
    let r := update_user db now user_id (fun u =>
      { u with failed_login_attempts := new_attempts,
               last_failed_login := some now,
               is_locked := if new_attempts ≥ 3 then true else u.is_locked })
    ({ success := true, attempts := new_attempts, is_locked := new_attempts ≥ 3 },
     r.2)

/-- db_helpers `reset_failed_login_attempts`. -/
def reset_failed_login_attempts (db : Db) (now : Nat) (user_id : Nat) :
    Bool × Db :=
  update_user db now user_id (fun u =>
    { u with failed_login_attempts := 0, last_failed_login := none })

/-- db_helpers `update_password`: archives the current digest into the
history, keeps only the last 3 entries (`password_history[-3:]`), and
writes the new digest together with the trimmed history. -/
def update_password (db : Db) (now : Nat) (user_id : Nat) (new_hashed : Digest) :
    Bool × Db :=
  match get_user_by_id db user_id with
  | none => (false, db)
  | some user =>
    let history := user.password_history ++
      [{ hashed_password := user.hashed_password, changed_at := now }]
    let history := history.drop (history.length - 3)
    update_user db now user_id (fun u =>
      { u with hashed_password := new_hashed, password_history := history })

/-- db_helpers `check_password_in_history`: true iff some stored
history digest is byte-equal to the given (freshly computed) digest. -/
def check_password_in_history (db : Db) (user_id : Nat) (hashed : Digest) : Bool :=
  match get_user_by_id db user_id with
  | none => false
  | some user =>
    user.password_history.any (fun e => e.hashed_password == hashed)

/-- db_helpers `set_activation_token` (expiry: `expires_in_hours`,
24 by default at the call site). -/
def set_activation_token (db : Db) (now : Nat) (user_id : Nat)
    (token : String) (expires_in_hours : Nat) : Bool × Db :=
  update_user db now user_id (fun u =>
    { u with activation_token := some token,
             activation_token_expires := some (now + expires_in_hours * 3600) })

/-- db_helpers `get_user_by_activation_token`: exact match on the
trimmed token, then a post-hoc expiry check that rejects only when
the stored expiry is strictly before now (and skips the check
entirely when no expiry is stored). -/
def get_user_by_activation_token (db : Db) (now : Nat) (token : String) :
    Option Account :=
  let token := pyStrip token
  match db.find? (fun u => u.activation_token == some token) with
  | none => none
  | some user =>
    match user.activation_token_expires with
    | some expires => if expires < now then none else some user
    | none => some user

/-- db_helpers `set_reset_password_token` (expiry: `expires_in_hours`,
1 by default at the call site). -/
def set_reset_password_token (db : Db) (now : Nat) (user_id : Nat)
    (token : String) (expires_in_hours : Nat) : Bool × Db :=
  update_user db now user_id (fun u =>
    { u with reset_password_token := some token,
             reset_password_token_expires := some (now + expires_in_hours * 3600) })

/-- db_helpers `get_user_by_reset_token`: a single `find_one` whose
filter requires the exact token AND
`reset_password_token_expires > now` — the non-expired condition is
part of the store query itself. -/
def get_user_by_reset_token (db : Db) (now : Nat) (token : String) :
    Option Account :=
  db.find? (fun u =>
    u.reset_password_token == some token &&
      (match u.reset_password_token_expires with
       | some e => decide (now < e)
       | none => false))

/-- db_helpers `clear_reset_password_token`. -/
def clear_reset_password_token (db : Db) (now : Nat) (user_id : Nat) :
    Bool × Db :=
  update_user db now user_id (fun u =>
    { u with reset_password_token := none,
             reset_password_token_expires := none })

/-- An HTTPException raised by a route (status class + detail), or an
uncaught Python exception escaping the route handler. -/
inductive HErr where
  | badRequest (detail : String)
  | unauthorized (detail : String)
  | forbidden (detail : String)
  | serverError (detail : String)
  | pythonError (msg : String)
deriving DecidableEq

/-- One `BackgroundTasks.add_task` email dispatch. -/
structure Notification where
  kind : String
  email : String
  token : String
  name : String
deriving DecidableEq

/-- schemas `TokenResponse`. -/
structure TokenResponse where
  access_token : Token
  refresh_token : Token
  expires_in : Nat
deriving DecidableEq

/-- The sanitized user view built by the login route. -/
structure UserInfo where
  id : Nat
  first_name : String
  last_name : String
  email : String
  phone_number : String
deriving DecidableEq

/-- schemas `UserLoginResponse`. -/
structure UserLoginResponse where
  message : String
  tokens : TokenResponse
  user : UserInfo
deriving DecidableEq

/-- schemas `UserRegisterResponse`. -/
structure RegisterOk where
  message : String
  user_id : Nat
  email : String
deriving DecidableEq

/-- routers/auth.py `register`: duplicate pre-checks, password hash
(with the fresh salt `salt`), new document with `is_active = false`,
insert, activation token (24h), background activation email.
`new_id` is the Mongo-generated `_id`; `activation_token` is the
value `create_activation_token()` drew. -/
def register (db : Db) (now : Nat) (salt : Nat) (new_id : Nat)
    (activation_token : String) (first_name last_name email phone_number
    password : String) (date_of_birth : Nat) :
    Except HErr RegisterOk × Db × List Notification :=
  match get_user_by_email db email with
  | some _ => (.error (.badRequest ("Email already registered")), db, [])
  | none =>
  match get_user_by_phone db phone_number with
  | some _ => (.error (.badRequest ("Phone number already registered")), db, [])
  | none =>
    let hashed_password := hash_password password salt
    let user_doc : Account :=
      { id := new_id, first_name := first_name, last_name := last_name,
        date_of_birth := date_of_birth, email := pyLower email,
        phone_number := phone_number, hashed_password := hashed_password,
        is_active := false, is_locked := false, failed_login_attempts := 0,
        last_failed_login := none, password_history := [],
        activation_token := none, activation_token_expires := none,
        reset_password_token := none, reset_password_token_expires := none,
        created_at := now, updated_at := now }
    let db1 := db ++ [user_doc]
    let r := set_activation_token db1 now new_id activation_token 24
    (.ok { message := "Registration successful. Please check your email (" ++
             email ++ ") to activate your account. Check spam folder if not received.",
           user_id := new_id, email := email },
     r.2,
     [{ kind := "activation", email := pyStrip (pyLower email),
        token := activation_token,
        name := first_name ++ " " ++ last_name }])

/-- routers/auth.py `activate_account`: lookup by (non-expired)
activation token, 400 on failure, else `activate_user`. -/
def activate_account (db : Db) (now : Nat) (token : String) :
    Except HErr (String × Nat) × Db :=
  match get_user_by_activation_token db now token with
  | none => (.error (.badRequest ("Invalid or expired activation token")), db)
  | some user =>
    let r := activate_user db now user.id
    (.ok ("Account activated successfully. You can now log in.", user.id), r.2)

/-- routers/auth.py `login`: unknown email → 401 uniform message;
locked → 403; not activated → 403; wrong password → increment (with
lock at 3, raised in the same update), then 403 locked or 401 with
the remaining-attempt count; correct password → reset counter, issue
access+refresh tokens, return sanitized profile. -/
def login (s : Settings) (db : Db) (now : Nat) (email password : String) :
    Except HErr UserLoginResponse × Db :=
  match get_user_by_email db email with
  | none => (.error (.unauthorized ("Invalid email or password")), db)
  | some user =>
    if user.is_locked then
      (.error (.forbidden ("Account is locked due to multiple failed login attempts. Please contact support.")), db)
    else if !user.is_active then
      (.error (.forbidden ("Account not activated. Please check your email and activate your account.")), db)
    else
      match verify_password password user.hashed_password with
      | .error e => (.error (.pythonError e), db)
      | .ok false =>
        let r := increment_failed_login_attempts db now user.id
        if r.1.is_locked then
          (.error (.forbidden ("Account locked due to 3 consecutive failed login attempts. Please contact support.")), r.2)
        else
          (.error (.unauthorized ("Invalid email or password. " ++
             toString (3 - r.1.attempts) ++ " attempt(s) remaining.")), r.2)
      | .ok true =>
        let r := reset_failed_login_attempts db now user.id
        let token_data : JwtData := { sub := some (toString user.id), email := some user.email }
        (.ok { message := "Login successful",
               tokens := { access_token := create_access_token s now token_data none,
                           refresh_token := create_refresh_token s now token_data,
                           expires_in := s.jwt_access_token_expire_minutes * 60 },
               user := { id := user.id, first_name := user.first_name,
                         last_name := user.last_name, email := user.email,
                         phone_number := user.phone_number } },
         r.2)

/-- All names bound at module level in routers/auth.py: the imports
on its lines 4-29 and the module-level definitions.  Python resolves
a global name at call time against exactly this set. -/
def routers_auth_module_names : List String :=
  ["APIRouter", "HTTPException", "status", "Depends", "BackgroundTasks", "Request",
   "timedelta",
   "UserRegister", "UserRegisterResponse", "UserLogin", "UserLoginResponse",
   "TokenResponse", "ChangePassword", "ForgotPassword", "ResetPassword",
   "ActivateAccount", "ActivateAccountResponse", "RefreshTokenRequest",
   "MessageResponse",
   "get_user_by_email", "get_user_by_phone", "create_user", "activate_user",
   "update_password", "check_password_in_history", "set_activation_token",
   "get_user_by_activation_token", "set_reset_password_token",
   "get_user_by_reset_token", "clear_reset_password_token",
   "increment_failed_login_attempts", "reset_failed_login_attempts",
   "lock_user_account",
   "hash_password", "verify_password", "create_access_token",
   "create_refresh_token", "verify_token", "create_activation_token",
   "create_reset_password_token",
   "send_activation_email", "send_password_reset_email",
   "get_current_user", "settings",
   "router", "register", "activate_account", "login", "refresh_token",
   "change_password", "forgot_password", "reset_password",
   "get_current_user_info"]

/-- The helper `get_user_by_id` applied to the optional `sub` claim,
as the routes do after `payload.get("sub")` (a missing or
non-ObjectId `sub` yields no user, via the `ObjectId.is_valid`
guard). -/
def get_user_by_sub (db : Db) (sub : Option String) : Option Account :=
  match sub with
  | none => none
  | some sid => db.find? (fun u => toString u.id == sid)

/-- routers/auth.py `refresh_token`: verifies the token as type
`refresh` (401 on failure), then evaluates `get_user_by_id(user_id)`.
That global name is NOT among `routers_auth_module_names` (it is
missing from the db_helpers import list on lines 13-20), so in the
source this line raises NameError; the branch guarded by the name
lookup is what the route would do if the import were present. -/
def refresh_token_route (s : Settings) (db : Db) (now : Nat) (token : Token) :
    Except HErr TokenResponse × Db :=
  match verify_token s now token "refresh" with
  | none => (.error (.unauthorized ("Invalid or expired refresh token")), db)
  | some payload =>
    if "get_user_by_id" ∈ routers_auth_module_names then
      match get_user_by_sub db payload.sub with
      | none => (.error (.unauthorized ("User not found")), db)
      | some user =>
        if !user.is_active then
          (.error (.forbidden ("Account not activated")), db)
        else if user.is_locked then
          (.error (.forbidden ("Account is locked")), db)
        else
          let new_token_data : JwtData :=
            { sub := some (toString user.id), email := some user.email }
          (.ok { access_token := create_access_token s now new_token_data none,
                 refresh_token := token,
                 expires_in := s.jwt_access_token_expire_minutes * 60 }, db)
    else
      (.error (.pythonError ("NameError: name get_user_by_id is not defined")), db)

/-- dependencies.py `get_current_user`: verify the bearer token as
type `access` (401), extract `sub` (401), load the user (401), then
reject unactivated (403) and locked (403) accounts. -/
def get_current_user (s : Settings) (db : Db) (now : Nat) (token : Token) :
    Except HErr Account :=
  match verify_token s now token "access" with
  | none => .error (.unauthorized ("Invalid authentication credentials"))
  | some payload =>
    match payload.sub with
    | none => .error (.unauthorized ("Invalid token payload"))
    | some user_id =>
      match get_user_by_sub db (some user_id) with
      | none => .error (.unauthorized ("User not found"))
      | some user =>
        if !user.is_active then
          .error (.forbidden ("Account not activated. Please activate your account to continue."))
        else if user.is_locked then
          .error (.forbidden ("Account is locked. Please contact support."))
        else
          .ok user

/-- routers/auth.py `change_password` (body, after the
`get_current_user` dependency has produced `current_user`): verify
the current password, hash the new one (fresh salt `salt`), reject
when the fresh digest occurs in the history, else update. -/
def change_password (db : Db) (now : Nat) (salt : Nat) (current_user : Account)
    (current_password new_password : String) : Except HErr String × Db :=
  match verify_password current_password current_user.hashed_password with
  | .error e => (.error (.pythonError e), db)
  | .ok false => (.error (.badRequest ("Current password is incorrect")), db)
  | .ok true =>
    let new_hashed_password := hash_password new_password salt
    if check_password_in_history db current_user.id new_hashed_password then
      (.error (.badRequest ("New password cannot be the same as any of your last 3 passwords")), db)
    else
      let r := update_password db now current_user.id new_hashed_password
      if r.1 then (.ok ("Password changed successfully"), r.2)
      else (.error (.serverError ("Failed to update password")), r.2)

/-- The full change-password endpoint: the `get_current_user`
dependency runs first; its HTTPException aborts the request before
the route body executes. -/
def change_password_route (s : Settings) (db : Db) (now : Nat) (salt : Nat)
    (token : Token) (current_password new_password : String) :
    Except HErr String × Db :=
  match get_current_user s db now token with
  | .error e => (.error e, db)
  | .ok current_user =>
    change_password db now salt current_user current_password new_password

/-- routers/auth.py `get_current_user_info` (`GET /me`): returns the
profile of the authenticated user; the dependency alone can refuse. -/
def get_current_user_info_route (s : Settings) (db : Db) (now : Nat)
    (token : Token) : Except HErr UserInfo :=
  match get_current_user s db now token with
  | .error e => .error e
  | .ok current_user =>
    .ok { id := current_user.id, first_name := current_user.first_name,
          last_name := current_user.last_name, email := current_user.email,
          phone_number := current_user.phone_number }

/-- routers/auth.py `forgot_password`: identical generic message on
both branches; when the email exists, store a reset token (1h expiry)
and schedule the reset email as a background task.  `reset_token` is
the value `create_reset_password_token()` drew. -/
def forgot_password (db : Db) (now : Nat) (reset_token : String)
    (email : String) : String × Db × List Notification :=
  match get_user_by_email db email with
  | none => ("If the email exists, a password reset link has been sent.", db, [])
  | some user =>
    let r := set_reset_password_token db now user.id reset_token 1
    ("If the email exists, a password reset link has been sent.", r.2,
     [{ kind := "password_reset", email := user.email, token := reset_token,
        name := user.first_name ++ " " ++ user.last_name }])

/-- routers/auth.py `reset_password`: lookup by non-expired reset
token (400 on failure), hash the new password (fresh salt `salt`),
same history-reuse check and update as change-password, then clear
the reset token. -/
def reset_password (db : Db) (now : Nat) (salt : Nat)
    (token new_password : String) : Except HErr String × Db :=
  match get_user_by_reset_token db now token with
  | none => (.error (.badRequest ("Invalid or expired reset token")), db)
  | some user =>
    let new_hashed_password := hash_password new_password salt
    if check_password_in_history db user.id new_hashed_password then
      (.error (.badRequest ("New password cannot be the same as any of your last 3 passwords")), db)
    else
      let r := update_password db now user.id new_hashed_password
      if !r.1 then (.error (.serverError ("Failed to reset password")), r.2)
      else
        let r2 := clear_reset_password_token r.2 now user.id
        (.ok ("Password reset successfully"), r2.2)

/-- The operations that can touch the users collection: the seven
auth routes plus the administrative `unlock_user_account` helper
(`lock_user_account` is imported but called from no route, and the
users router only reads). -/
inductive Op where
  | opRegister (now salt new_id : Nat) (activation_token first_name last_name
      email phone_number password : String) (date_of_birth : Nat)
  | opActivate (now : Nat) (token : String)
  | opLogin (now : Nat) (email password : String)
  | opRefresh (now : Nat) (token : Token)
  | opChangePassword (now salt : Nat) (token : Token)
      (current_password new_password : String)
  | opForgotPassword (now : Nat) (reset_token email : String)
  | opResetPassword (now salt : Nat) (token new_password : String)
  | opUnlock (now : Nat) (user_id : Nat)

/-- The effect of one operation on the users collection. -/
def stepDb (s : Settings) (db : Db) : Op → Db
  | .opRegister now salt new_id atok first last email phone password dob =>
      (register db now salt new_id atok first last email phone password dob).2.1
  | .opActivate now token => (activate_account db now token).2
  | .opLogin now email password => (login s db now email password).2
  | .opRefresh now token => (refresh_token_route s db now token).2
  | .opChangePassword now salt token cur new =>
      (change_password_route s db now salt token cur new).2
  | .opForgotPassword now rtok email => (forgot_password db now rtok email).2.1
  | .opResetPassword now salt token new => (reset_password db now salt token new).2
  | .opUnlock now user_id => (unlock_user_account db now user_id).2

/-! ### Concrete fixtures used by the counterexample / witness theorems -/

/-- A registered, activated, unlocked account with password P0
(digest `bc 0 "P0"`). -/
def baseAcct : Account :=
  { id := 1, first_name := "A", last_name := "B", date_of_birth := 0,
    email := "u@x.com", phone_number := "5550001111",
    hashed_password := Digest.bc 0 "P0", is_active := true, is_locked := false,
    failed_login_attempts := 0, last_failed_login := none, password_history := [],
    activation_token := none, activation_token_expires := none,
    reset_password_token := none, reset_password_token_expires := none,
    created_at := 0, updated_at := 0 }

/-- Example settings (secret key plus the default TTLs). -/
def exSettings : Settings :=
  { jwt_secret_key := "secret", jwt_algorithm := "HS256",
    jwt_access_token_expire_minutes := 30, jwt_refresh_token_expire_days := 7 }

/-- One password change against account 1: the `get_current_user`
dependency loads the current record by id, then the route body runs
with it (`salt` is the fresh salt `bcrypt.gensalt()` drew for the new
password). -/
def chgStep (db : Db) (now salt : Nat) (cur new : String) :
    Except HErr String × Db :=
  match get_user_by_id db 1 with
  | some u => change_password db now salt u cur new
  | none => (.error (.unauthorized ("User not found")), db)

/-- State after changing P0 → P1 (fresh salt 1). -/
def histDb1 : Db := (chgStep [baseAcct] 1 1 "P0" "P1").2

/-- State after changing P1 → P2 (fresh salt 2). -/
def histDb2 : Db := (chgStep histDb1 2 2 "P1" "P2").2

/-- State after changing P2 → P3 (fresh salt 3). -/
def histDb3 : Db := (chgStep histDb2 3 3 "P2" "P3").2

/-- State after changing P3 → P4 (fresh salt 4): the history now
holds the digests of P1, P2, P3 (P0 evicted). -/
def histDb4 : Db := (chgStep histDb3 4 4 "P3" "P4").2

/-- A well-formed, unexpired refresh token signed with the configured
secret, carrying subject id 1. -/
def exRefreshToken : Token :=
  Token.signed
    { sub := some "1", email := some ("u@x.com"), exp := 1000, type := "refresh" }
    "secret"

/-- An account whose activation token T expires exactly at instant
100. -/
def boundaryAcct : Account :=
  { baseAcct with id := 2, is_active := false, activation_token := some ("T"),
                  activation_token_expires := some 100 }

/-- An account holding reset secret R that expires at instant 200. -/
def resetAcct : Account :=
  { baseAcct with id := 3, reset_password_token := some ("R"),
                  reset_password_token_expires := some 200 }

/-- A locked variant of the base account. -/
def lockedAcct : Account := { baseAcct with is_locked := true }

/-- A valid access token for subject 1 under the example settings. -/
def exAccessToken : Token :=
  Token.signed { sub := some "1", email := none, exp := 99, type := "access" }
    "secret"

/-- Pointwise preservation of a set `is_locked` flag between two
states of the collection. -/
def LockPreserved (db dbq : Db) : Prop :=
  ∀ (i : Nat) (u v : Account), db[i]? = some u → dbq[i]? = some v →
    u.is_locked = true → v.is_locked = true

/-- An unactivated account holding activation secret TOK that
expires at instant 500. -/
def activAcct : Account :=
  { baseAcct with id := 4, is_active := false,
                  activation_token := some ("TOK"),
                  activation_token_expires := some 500 }

/-- The lockout-counter invariant of reachable states: an unlocked
account always has fewer than 3 recorded failures (the login flow
locks in the same update that reaches 3, and unlock resets to 0). -/
abbrev CounterInv (db : Db) : Prop :=
  ∀ u ∈ db, u.is_locked = false → u.failed_login_attempts < 3

/-! ### Helper lemmas about the store operations -/

theorem update_user_snd_getElem (db : Db) (now uid : Nat)
    (f : Account → Account) (i : Nat) :
    (update_user db now uid f).2[i]? =
      (db[i]?).map (fun u =>
        if u.id == uid then { f u with updated_at := now } else u) := by
  simp [update_user, List.getElem?_map]

theorem update_user_snd_length (db : Db) (now uid : Nat)
    (f : Account → Account) :
    (update_user db now uid f).2.length = db.length := by
  simp [update_user]

theorem mem_of_getElem_opt {α : Type} (l : List α) (i : Nat) (a : α)
    (h : l[i]? = some a) : a ∈ l := by
  induction l generalizing i with
  | nil => simp at h
  | cons x t ih =>
    cases i with
    | zero => simp at h; simp [h]
    | succ j =>
      simp only [List.getElem?_cons_succ] at h
      exact List.mem_cons_of_mem x (ih j h)

theorem get_user_by_id_of_nodup (db : Db)
    (hids : (db.map Account.id).Nodup) (i : Nat) (u : Account)
    (h : db[i]? = some u) : get_user_by_id db u.id = some u := by
  induction db generalizing i with
  | nil => simp at h
  | cons a t ih =>
    simp only [List.map_cons, List.nodup_cons] at hids
    cases i with
    | zero =>
      simp only [List.getElem?_cons_zero, Option.some.injEq] at h
      subst h
      simp [get_user_by_id, List.find?_cons_of_pos]
    | succ j =>
      simp only [List.getElem?_cons_succ] at h
      have hmem : u ∈ t := mem_of_getElem_opt t j u h
      have hne : (a.id == u.id) = false := by
        simp only [beq_eq_false_iff_ne, ne_eq]
        intro heq
        exact hids.1 (heq ▸ List.mem_map_of_mem Account.id hmem)
      have := ih hids.2 j h
      simpa [get_user_by_id, List.find?_cons, hne] using this

/-! ### The locked flag is cleared by no operation except unlock -/

theorem lockPreserved_refl (db : Db) : LockPreserved db db := by
  unfold LockPreserved
  intro i u v hu hv h
  rw [hu] at hv
  cases hv
  exact h

theorem lockPreserved_update (db : Db) (now uid : Nat) (f : Account → Account)
    (hf : ∀ u, u.is_locked = true → (f u).is_locked = true) :
    LockPreserved db (update_user db now uid f).2 := by
  unfold LockPreserved
  intro i u v hu hv h
  rw [update_user_snd_getElem, hu] at hv
  simp only [Option.map_some', Option.some.injEq] at hv
  subst hv
  by_cases hid : (u.id == uid) = true
  · simp only [hid, if_true]
    exact hf u h
  · simp only [eq_false_of_ne_true hid, if_false]
    exact h

theorem lockPreserved_append (db l : Db) : LockPreserved db (db ++ l) := by
  unfold LockPreserved
  intro i u v hu hv h
  have hi : i < db.length := by
    cases hlt : decide (i < db.length) with
    | true => exact of_decide_eq_true hlt
    | false =>
      exfalso
      rw [List.getElem?_eq_none (Nat.le_of_not_lt (of_decide_eq_false hlt))] at hu
      cases hu
  rw [List.getElem?_append, if_pos hi, hu] at hv
  cases hv
  exact h

theorem lockPreserved_trans (db db1 db2 : Db)
    (h1 : LockPreserved db db1) (h2 : LockPreserved db1 db2)
    (hlen : db.length ≤ db1.length) : LockPreserved db db2 := by
  unfold LockPreserved
  intro i u v hu hv h
  have hi : i < db.length := by
    cases hlt : decide (i < db.length) with
    | true => exact of_decide_eq_true hlt
    | false =>
      exfalso
      rw [List.getElem?_eq_none (Nat.le_of_not_lt (of_decide_eq_false hlt))] at hu
      cases hu
  have hw : ∃ w, db1[i]? = some w := by
    have : i < db1.length := Nat.lt_of_lt_of_le hi hlen
    exact ⟨db1[i], List.getElem?_eq_some.mpr ⟨this, rfl⟩⟩
  obtain ⟨w, hw⟩ := hw
  exact h2 i w v hw hv (h1 i u w hu hw h)

theorem increment_lockPreserved (db : Db) (now uid : Nat) :
    LockPreserved db (increment_failed_login_attempts db now uid).2 := by
  unfold increment_failed_login_attempts
  cases hfind : get_user_by_id db uid with
  | none => exact lockPreserved_refl db
  | some user =>
    simp only []
    apply lockPreserved_update
    intro u h
    simp only [h]
    split <;> rfl

theorem update_password_lockPreserved (db : Db) (now uid : Nat) (d : Digest) :
    LockPreserved db (update_password db now uid d).2 := by
  unfold update_password
  cases hfind : get_user_by_id db uid with
  | none => exact lockPreserved_refl db
  | some user =>
    simp only []
    apply lockPreserved_update
    intro u h
    exact h

theorem update_password_snd_length (db : Db) (now uid : Nat) (d : Digest) :
    (update_password db now uid d).2.length = db.length := by
  unfold update_password
  cases hfind : get_user_by_id db uid with
  | none => rfl
  | some user => simp only []; rw [update_user_snd_length]

theorem login_lockPreserved (s : Settings) (db : Db) (now : Nat)
    (email password : String) :
    LockPreserved db (login s db now email password).2 := by
  unfold login
  cases hfe : get_user_by_email db email with
  | none => exact lockPreserved_refl db
  | some user =>
    simp only []
    split
    · exact lockPreserved_refl db
    · split
      · exact lockPreserved_refl db
      · cases hv : verify_password password user.hashed_password with
        | error e => exact lockPreserved_refl db
        | ok b =>
          cases b with
          | false =>
            simp only []
            split
            · exact increment_lockPreserved db now user.id
            · exact increment_lockPreserved db now user.id
          | true =>
            simp only [reset_failed_login_attempts]
            apply lockPreserved_update
            intro u h
            exact h

theorem activate_lockPreserved (db : Db) (now : Nat) (token : String) :
    LockPreserved db (activate_account db now token).2 := by
  unfold activate_account
  cases hfind : get_user_by_activation_token db now token with
  | none => exact lockPreserved_refl db
  | some user =>
    simp only [activate_user]
    apply lockPreserved_update
    intro u h
    exact h

theorem register_lockPreserved (db : Db) (now salt new_id : Nat)
    (atok first last email phone password : String) (dob : Nat) :
    LockPreserved db
      (register db now salt new_id atok first last email phone password dob).2.1 := by
  unfold register
  cases h1 : get_user_by_email db email with
  | some u => exact lockPreserved_refl db
  | none =>
    cases h2 : get_user_by_phone db phone with
    | some u => exact lockPreserved_refl db
    | none =>
      simp only [set_activation_token]
      apply lockPreserved_trans db (db ++ [_]) _ (lockPreserved_append db _)
      · apply lockPreserved_update
        intro u h
        exact h
      · simp

theorem refresh_db_unchanged (s : Settings) (db : Db) (now : Nat) (t : Token) :
    (refresh_token_route s db now t).2 = db := by
  unfold refresh_token_route
  cases hv : verify_token s now t "refresh" with
  | none => rfl
  | some payload =>
    simp only []
    split
    · cases hg : get_user_by_sub db payload.sub with
      | none => rfl
      | some user =>
        simp only []
        split
        · rfl
        · split <;> rfl
    · rfl

theorem change_password_lockPreserved (db : Db) (now salt : Nat)
    (cu : Account) (cur new : String) :
    LockPreserved db (change_password db now salt cu cur new).2 := by
  unfold change_password
  cases hv : verify_password cur cu.hashed_password with
  | error e => exact lockPreserved_refl db
  | ok b =>
    cases b with
    | false => exact lockPreserved_refl db
    | true =>
      simp only []
      split
      · exact lockPreserved_refl db
      · split
        · exact update_password_lockPreserved db now cu.id _
        · exact update_password_lockPreserved db now cu.id _

theorem change_password_route_lockPreserved (s : Settings) (db : Db)
    (now salt : Nat) (token : Token) (cur new : String) :
    LockPreserved db (change_password_route s db now salt token cur new).2 := by
  unfold change_password_route
  cases hu : get_current_user s db now token with
  | error e => exact lockPreserved_refl db
  | ok cu => exact change_password_lockPreserved db now salt cu cur new

theorem forgot_lockPreserved (db : Db) (now : Nat) (rtok email : String) :
    LockPreserved db (forgot_password db now rtok email).2.1 := by
  unfold forgot_password
  cases hfe : get_user_by_email db email with
  | none => exact lockPreserved_refl db
  | some user =>
    simp only [set_reset_password_token]
    apply lockPreserved_update
    intro u h
    exact h

theorem reset_password_lockPreserved (db : Db) (now salt : Nat)
    (token new : String) :
    LockPreserved db (reset_password db now salt token new).2 := by
  unfold reset_password
  cases hfind : get_user_by_reset_token db now token with
  | none => exact lockPreserved_refl db
  | some user =>
    simp only []
    split
    · exact lockPreserved_refl db
    · split
      · exact update_password_lockPreserved db now user.id _
      · apply lockPreserved_trans db (update_password db now user.id _).2 _
          (update_password_lockPreserved db now user.id _)
        · simp only [clear_reset_password_token]
          apply lockPreserved_update
          intro u h
          exact h
        · rw [update_password_snd_length]

/-- No operation other than the explicit unlock ever clears a set
`is_locked` flag. -/
theorem stepDb_lockPreserved (s : Settings) (db : Db) (op : Op)
    (h : ∀ n uid, op ≠ Op.opUnlock n uid) :
    LockPreserved db (stepDb s db op) := by
  cases op with
  | opRegister now salt new_id atok first last email phone password dob =>
    exact register_lockPreserved db now salt new_id atok first last email phone password dob
  | opActivate now token => exact activate_lockPreserved db now token
  | opLogin now email password => exact login_lockPreserved s db now email password
  | opRefresh now token =>
    show LockPreserved db (refresh_token_route s db now token).2
    rw [refresh_db_unchanged]
    exact lockPreserved_refl db
  | opChangePassword now salt token cur new =>
    exact change_password_route_lockPreserved s db now salt token cur new
  | opForgotPassword now rtok email => exact forgot_lockPreserved db now rtok email
  | opResetPassword now salt token new =>
    exact reset_password_lockPreserved db now salt token new
  | opUnlock now uid => exact absurd rfl (h now uid)

/-! ### Helper lemmas about the token codec -/

theorem create_access_token_none_eq (s : Settings) (now : Nat) (data : JwtData) :
    create_access_token s now data none =
      Token.signed
        { sub := data.sub, email := data.email,
          exp := now + s.jwt_access_token_expire_minutes * 60, type := "access" }
        s.jwt_secret_key := rfl

theorem verify_token_signed_eq (s : Settings) (now : Nat) (claims : JwtClaims)
    (key ty : String) :
    verify_token s now (Token.signed claims key) ty =
      if key = s.jwt_secret_key then
        (if claims.exp < now then none
         else (if claims.type = ty then some claims else none))
      else none := by
  unfold verify_token jwt_decode
  by_cases hk : key = s.jwt_secret_key
  · by_cases he : claims.exp < now
    · simp [hk, he]
    · by_cases hty : claims.type = ty
      · simp [hk, he, hty]
      · simp [hk, he, hty]
  · simp [hk]

/-! ### Claim theorems -/

/-- C1: after the password changes P0 → P1 → P2 → P3 → P4 the stored
history holds exactly the digests of P1, P2 and P3 (FIFO cap 3, P0
evicted) — yet changing the password back to P1 SUCCEEDS instead of
failing PasswordReused: `check_password_in_history` compares the
candidate digest (hashed under the fresh salt 5 that
`bcrypt.gensalt()` drew) byte-for-byte against digests hashed under
the old salts, so the reuse check cannot fire and the claimed
scenario fails on the code. -/
theorem C1_password_reuse_not_detected :
    (get_user_by_id histDb4 1).map
        (fun u => u.password_history.map (fun e => e.hashed_password)) =
      some [Digest.bc 1 "P1", Digest.bc 2 "P2", Digest.bc 3 "P3"] ∧
    (get_user_by_id histDb4 1).map (fun u => u.hashed_password) =
      some (Digest.bc 4 "P4") ∧
    check_password_in_history histDb4 1 (hash_password "P1" 5) = false ∧
    (chgStep histDb4 5 5 "P4" "P1").1 =
      Except.ok ("Password changed successfully") := by
  decide


/-- C3: the name `get_user_by_id` is bound nowhere in routers/auth.py
(the db_helpers import list omits it), so as soon as a presented
refresh token passes verification the route raises NameError instead
of loading the account and producing the claimed
AccountNotFound / AccountNotActivated / AccountLocked / success
outcomes. -/
theorem C3_refresh_route_raises_name_error :
    ("get_user_by_id" ∉ routers_auth_module_names) ∧
    verify_token exSettings 0 exRefreshToken "refresh" =
      some { sub := some "1", email := some ("u@x.com"), exp := 1000,
             type := "refresh" } ∧
    (refresh_token_route exSettings [baseAcct] 0 exRefreshToken).1 =
      Except.error (HErr.pythonError
        ("NameError: name get_user_by_id is not defined")) := by
  decide


/-- C6 counterexample: at check time 100 — the very instant the
activation token expires, so its expiry is NOT strictly in the
future — the lookup still accepts the token (the code rejects only
when `expires < now`). -/
theorem C6_activation_boundary_counterexample :
    get_user_by_activation_token [boundaryAcct] 100 "T" = some boundaryAcct ∧
    boundaryAcct.activation_token_expires = some 100 ∧
    ¬(100 < 100) := by
  decide

/-- C6 amended: a lookup by activation secret succeeds only if the
stored secret matches the (trimmed) input exactly and any stored
expiry is at-or-after the check time (non-strict: the boundary
instant is accepted); a lookup by reset secret succeeds only if the
stored secret matches exactly and its expiry is strictly in the
future, that condition being part of the store query itself. -/
theorem C6_secret_validity (db : Db) (now : Nat) (t : String) (u : Account) :
    (get_user_by_activation_token db now t = some u →
      u.activation_token = some (pyStrip t) ∧
      ∀ e, u.activation_token_expires = some e → now ≤ e) ∧
    (get_user_by_reset_token db now t = some u →
      u.reset_password_token = some t ∧
      ∃ e, u.reset_password_token_expires = some e ∧ now < e) := by
  constructor
  · intro h
    unfold get_user_by_activation_token at h
    dsimp only at h
    cases hf : db.find? (fun v => v.activation_token == some (pyStrip t)) with
    | none => rw [hf] at h; cases h
    | some m =>
      rw [hf] at h
      have hm := List.find?_some hf
      simp only [beq_iff_eq] at hm
      cases he : m.activation_token_expires with
      | none =>
        simp only [he] at h
        cases h
        refine ⟨hm, ?_⟩
        intro e hcontra
        rw [he] at hcontra
        cases hcontra
      | some e =>
        simp only [he] at h
        by_cases hlt : e < now
        · rw [if_pos hlt] at h; cases h
        · rw [if_neg hlt] at h
          cases h
          refine ⟨hm, ?_⟩
          intro e2 he2
          rw [he] at he2
          cases he2
          exact Nat.le_of_not_lt hlt
  · intro h
    unfold get_user_by_reset_token at h
    have hm := List.find?_some h
    simp only [Bool.and_eq_true, beq_iff_eq, decide_eq_true_eq] at hm
    refine ⟨hm.1, ?_⟩
    cases he : u.reset_password_token_expires with
    | none => rw [he] at hm; cases hm.2
    | some e =>
      rw [he] at hm
      exact ⟨e, rfl, by simpa using hm.2⟩


/-- Witness for C6: a concrete activation lookup (token T, expiry
100, checked at 40) and a concrete reset lookup (token R, expiry
200, checked at 100), with the amended theorem applied to both. -/
theorem C6_secret_validity_witness :
    (get_user_by_activation_token [boundaryAcct] 40 "T" = some boundaryAcct ∧
      boundaryAcct.activation_token = some (pyStrip "T") ∧
      (∀ e, boundaryAcct.activation_token_expires = some e → 40 ≤ e)) ∧
    (get_user_by_reset_token [resetAcct] 100 "R" = some resetAcct ∧
      resetAcct.reset_password_token = some ("R") ∧
      ∃ e, resetAcct.reset_password_token_expires = some e ∧ 100 < e) := by
  constructor
  · have h : get_user_by_activation_token [boundaryAcct] 40 "T" = some boundaryAcct := by decide
    have := (C6_secret_validity [boundaryAcct] 40 "T" boundaryAcct).1 h
    exact ⟨h, this.1, this.2⟩
  · have h : get_user_by_reset_token [resetAcct] 100 "R" = some resetAcct := by decide
    have := (C6_secret_validity [resetAcct] 100 "R" resetAcct).2 h
    exact ⟨h, this.1, this.2⟩

/-- C7 counterexample: on a malformed digest (the empty string does
not parse as a bcrypt hash) `verify_password` propagates the bcrypt
ValueError instead of returning false — it does not return any
boolean. -/
theorem C7_malformed_digest_counterexample :
    verify_password "x" (Digest.malformed "") =
      Except.error ("ValueError: Invalid salt") ∧
    verify_password "x" (Digest.malformed "") ≠ Except.ok false ∧
    verify_password "x" (Digest.malformed "") ≠ Except.ok true := by
  decide

/-- C7 amended: on a well-formed digest, verification returns (never
throws) true iff the plaintext hashes to the digest under the
embedded salt; on a malformed digest it raises the bcrypt ValueError
(uncaught — `verify_password` has no try/except), rather than
returning false. -/
theorem C7_verify_password_behaviour (plain : String) (salt : Nat)
    (pw raw : String) :
    verify_password plain (Digest.bc salt pw) = Except.ok (pw == plain) ∧
    verify_password plain (Digest.malformed raw) =
      Except.error ("ValueError: Invalid salt") := by
  exact ⟨rfl, rfl⟩

/-- C5: an access token issued for a subject verifies as type
`access` at any instant within its TTL and yields claims carrying
that subject id; it never verifies as type `refresh`; any signed
token whose expiry is strictly past is invalid; and on a wrong
signature, an undecodable token, or a type mismatch, `verify_token`
returns invalid (None) rather than raising. -/
theorem C5_token_round_trip (s : Settings) (now : Nat) (data : JwtData)
    (id : String) (hsub : data.sub = some id) :
    (∀ now2, now2 ≤ now + s.jwt_access_token_expire_minutes * 60 →
      ∃ p, verify_token s now2 (create_access_token s now data none) "access" =
          some p ∧ p.sub = some id) ∧
    (∀ now2, verify_token s now2 (create_access_token s now data none)
        "refresh" = none) ∧
    (∀ claims key ty now2, claims.exp < now2 →
      verify_token s now2 (Token.signed claims key) ty = none) ∧
    (∀ claims key ty now2, key ≠ s.jwt_secret_key →
      verify_token s now2 (Token.signed claims key) ty = none) ∧
    (∀ raw ty now2, verify_token s now2 (Token.garbage raw) ty = none) ∧
    (∀ claims key ty now2, claims.type ≠ ty →
      verify_token s now2 (Token.signed claims key) ty = none) := by
  refine ⟨?_, ?_, ?_, ?_, ?_, ?_⟩
  · intro now2 hle
    refine ⟨{ sub := data.sub, email := data.email,
              exp := now + s.jwt_access_token_expire_minutes * 60,
              type := "access" }, ?_, by rw [hsub]⟩
    rw [create_access_token_none_eq, verify_token_signed_eq]
    simp [Nat.not_lt.mpr hle]
  · intro now2
    rw [create_access_token_none_eq, verify_token_signed_eq]
    simp
  · intro claims key ty now2 hexp
    rw [verify_token_signed_eq]
    simp [hexp]
  · intro claims key ty now2 hk
    rw [verify_token_signed_eq]
    simp [hk]
  · intro raw ty now2
    rfl
  · intro claims key ty now2 hty
    rw [verify_token_signed_eq]
    simp [hty]

/-- Witness for C5 at concrete settings, instant 0 and subject 9. -/
theorem C5_token_round_trip_witness :
    ({ sub := some "9", email := none : JwtData }.sub = some "9") ∧
    ((∃ p, verify_token exSettings 0
        (create_access_token exSettings 0 { sub := some "9", email := none } none)
        "access" = some p ∧ p.sub = some "9") ∧
      verify_token exSettings 0
        (create_access_token exSettings 0 { sub := some "9", email := none } none)
        "refresh" = none ∧
      verify_token exSettings 5000
        (Token.signed { sub := some "9", email := none, exp := 10, type := "access" }
          "secret") "access" = none) := by
  have h := C5_token_round_trip exSettings 0 { sub := some "9", email := none }
    "9" rfl
  exact ⟨rfl, h.1 0 (Nat.zero_le _), h.2.1 0, h.2.2.1 _ "secret" "access" 5000
    (by decide)⟩

/-- C10: the shared authentication dependency only ever hands a route
an account that is activated and not locked; when it rejects, the
change-password route and the current-user-info route return exactly
its error with the store untouched; and after successful token
verification it refuses (403) any resolved account that is
unactivated or locked. -/
theorem C10_auth_dependency_guards (s : Settings) (db : Db) (now : Nat)
    (token : Token) :
    (∀ u, get_current_user s db now token = Except.ok u →
      u.is_active = true ∧ u.is_locked = false) ∧
    (∀ e salt current_password new_password,
      get_current_user s db now token = Except.error e →
      change_password_route s db now salt token current_password new_password =
        (Except.error e, db)) ∧
    (∀ e, get_current_user s db now token = Except.error e →
      get_current_user_info_route s db now token = Except.error e) ∧
    (∀ p u, verify_token s now token "access" = some p →
      get_user_by_sub db p.sub = some u →
      (u.is_active = false ∨ u.is_locked = true) →
      ∃ d, get_current_user s db now token = Except.error (HErr.forbidden d) ∧
        (d = "Account not activated. Please activate your account to continue." ∨
         d = "Account is locked. Please contact support.")) := by
  refine ⟨?_, ?_, ?_, ?_⟩
  · intro u h
    unfold get_current_user at h
    cases hv : verify_token s now token "access" with
    | none => rw [hv] at h; cases h
    | some payload =>
      rw [hv] at h
      cases hs : payload.sub with
      | none => simp only [hs] at h; cases h
      | some sid =>
        simp only [hs] at h
        cases hg : get_user_by_sub db (some sid) with
        | none => rw [hg] at h; cases h
        | some w =>
          rw [hg] at h
          dsimp only at h
          by_cases ha : w.is_active = true
          · rw [if_neg (by simp [ha])] at h
            by_cases hl : w.is_locked = true
            · rw [if_pos hl] at h; cases h
            · rw [if_neg hl] at h
              cases h
              exact ⟨ha, Bool.eq_false_iff.mpr hl⟩
          · rw [if_pos (by simp [Bool.eq_false_iff.mpr ha])] at h
            cases h
  · intro e salt cur new h
    unfold change_password_route
    rw [h]
  · intro e h
    unfold get_current_user_info_route
    rw [h]
  · intro p u hv hg hbad
    unfold get_current_user
    rw [hv]
    dsimp only
    cases hs : p.sub with
    | none =>
      rw [hs] at hg
      simp [get_user_by_sub] at hg
    | some sid =>
      rw [hs] at hg
      dsimp only
      rw [hg]
      dsimp only
      by_cases ha : u.is_active = true
      · have hl : u.is_locked = true := by
          cases hbad with
          | inl h2 => rw [ha] at h2; cases h2
          | inr h2 => exact h2
        rw [if_neg (by simp [ha]), if_pos hl]
        exact ⟨_, rfl, Or.inr rfl⟩
      · rw [if_pos (by simp [Bool.eq_false_iff.mpr ha])]
        exact ⟨_, rfl, Or.inl rfl⟩

/-- Witness for C10: against a collection holding only the locked
account, the dependency rejects the valid access token with the
locked message, and the change-password route propagates exactly that
rejection. -/
theorem C10_auth_dependency_guards_witness :
    get_current_user exSettings [lockedAcct] 0 exAccessToken =
      Except.error (HErr.forbidden ("Account is locked. Please contact support.")) ∧
    change_password_route exSettings [lockedAcct] 0 1 exAccessToken "P0" "Q1" =
      (Except.error (HErr.forbidden ("Account is locked. Please contact support.")),
       [lockedAcct]) ∧
    get_current_user_info_route exSettings [lockedAcct] 0 exAccessToken =
      Except.error (HErr.forbidden ("Account is locked. Please contact support.")) := by
  have h : get_current_user exSettings [lockedAcct] 0 exAccessToken =
      Except.error (HErr.forbidden ("Account is locked. Please contact support.")) := by
    decide
  have h2 := (C10_auth_dependency_guards exSettings [lockedAcct] 0
    exAccessToken).2.1 _ 1 "P0" "Q1" h
  have h3 := (C10_auth_dependency_guards exSettings [lockedAcct] 0
    exAccessToken).2.2.1 _ h
  exact ⟨h, h2, h3⟩

/-- C8: every login failure of the credential class (HTTP 401 /
InvalidCredentials) carries either exactly the uniform
"Invalid email or password" text (unknown email) or that same text
followed only by the disclosed remaining-attempt count
(wrong password, lockout imminent) — so outside the intentional
count disclosure the message never distinguishes a wrong email from
a wrong password.  (Locked / unactivated rejections are HTTP 403 and
a different error class.) -/
theorem C8_login_error_uniformity (s : Settings) (db : Db) (now : Nat)
    (email password msg : String)
    (h : (login s db now email password).1 =
      Except.error (HErr.unauthorized msg)) :
    msg = "Invalid email or password" ∨
    ∃ n : Nat, msg = "Invalid email or password. " ++ toString n ++
      " attempt(s) remaining." := by
  unfold login at h
  cases hfe : get_user_by_email db email with
  | none =>
    rw [hfe] at h
    dsimp only at h
    simp only [Except.error.injEq, HErr.unauthorized.injEq] at h
    exact Or.inl h.symm
  | some user =>
    rw [hfe] at h
    dsimp only at h
    split at h
    · simp at h
    · split at h
      · simp at h
      · split at h
        · simp at h
        · split at h
          · simp at h
          · simp only [Except.error.injEq, HErr.unauthorized.injEq] at h
            exact Or.inr
              ⟨3 - (increment_failed_login_attempts db now user.id).1.attempts,
               h.symm⟩
        · simp at h

/-- Witness for C8: a login against the empty store fails with the
uniform message, and a wrong-password login against the base account
fails with the uniform message plus the remaining-attempt count; the
theorem applies to both. -/
theorem C8_login_error_uniformity_witness :
    ((login exSettings [] 0 "a@b.c" "x").1 =
      Except.error (HErr.unauthorized ("Invalid email or password")) ∧
     ("Invalid email or password" = "Invalid email or password" ∨
      ∃ n : Nat, "Invalid email or password" = "Invalid email or password. " ++
        toString n ++ " attempt(s) remaining.")) ∧
    ((login exSettings [baseAcct] 7 "u@x.com" "wrong").1 =
      Except.error (HErr.unauthorized
        ("Invalid email or password. 2 attempt(s) remaining."))) ∧
    ("Invalid email or password. 2 attempt(s) remaining." =
        "Invalid email or password" ∨
      ∃ n : Nat, "Invalid email or password. 2 attempt(s) remaining." =
        "Invalid email or password. " ++ toString n ++
        " attempt(s) remaining.") := by
  have h1 : (login exSettings [] 0 "a@b.c" "x").1 =
      Except.error (HErr.unauthorized ("Invalid email or password")) := by decide
  have h2 : (login exSettings [baseAcct] 7 "u@x.com" "wrong").1 =
      Except.error (HErr.unauthorized
        ("Invalid email or password. 2 attempt(s) remaining.")) := by decide
  exact ⟨⟨h1, C8_login_error_uniformity exSettings [] 0 "a@b.c" "x" _ h1⟩, h2,
    C8_login_error_uniformity exSettings [baseAcct] 7 "u@x.com" "wrong" _ h2⟩

/-- C9: forgot-password returns the identical generic message for any
two emails — in particular for an existing and a non-existing one —
and when the email does resolve to an account it additionally stores
a reset secret expiring exactly one hour later and schedules the
reset notification as a (fire-and-forget) background task. -/
theorem C9_forgot_password_enumeration_safe (db : Db) (now : Nat)
    (reset_token : String) :
    (∀ email1 email2,
      (forgot_password db now reset_token email1).1 =
        (forgot_password db now reset_token email2).1) ∧
    (∀ email, (forgot_password db now reset_token email).1 =
      "If the email exists, a password reset link has been sent.") ∧
    (∀ (email : String) (u : Account) (i : Nat),
      db[i]? = some u → get_user_by_email db email = some u →
      (∃ v : Account, (forgot_password db now reset_token email).2.1[i]? = some v ∧
        v.reset_password_token = some reset_token ∧
        v.reset_password_token_expires = some (now + 3600)) ∧
      (forgot_password db now reset_token email).2.2 =
        [{ kind := "password_reset", email := u.email, token := reset_token,
           name := u.first_name ++ " " ++ u.last_name }]) := by
  have hmsg : ∀ email, (forgot_password db now reset_token email).1 =
      "If the email exists, a password reset link has been sent." := by
    intro email
    unfold forgot_password
    cases hfe : get_user_by_email db email with
    | none => rfl
    | some user => rfl
  refine ⟨fun e1 e2 => by rw [hmsg e1, hmsg e2], hmsg, ?_⟩
  intro email u i hidx hfe
  unfold forgot_password
  rw [hfe]
  dsimp only
  constructor
  · have hval : (set_reset_password_token db now u.id reset_token 1).2[i]? =
        some { u with reset_password_token := some reset_token,
                      reset_password_token_expires := some (now + 1 * 3600),
                      updated_at := now } := by
      unfold set_reset_password_token
      rw [update_user_snd_getElem, hidx]
      simp
    exact ⟨_, hval, rfl, by norm_num⟩
  · rfl

/-- Witness for C9: concrete two-run equality between a non-existing
and the existing email, and the concrete stored secret / notification
for the existing one. -/
theorem C9_forgot_password_enumeration_safe_witness :
    ((forgot_password [baseAcct] 50 "RT" "nobody@x.com").1 =
      (forgot_password [baseAcct] 50 "RT" "u@x.com").1) ∧
    ([baseAcct][0]? = some baseAcct ∧
     get_user_by_email [baseAcct] "u@x.com" = some baseAcct) ∧
    (∃ v : Account, (forgot_password [baseAcct] 50 "RT" "u@x.com").2.1[0]? = some v ∧
      v.reset_password_token = some ("RT") ∧
      v.reset_password_token_expires = some (50 + 3600)) ∧
    (forgot_password [baseAcct] 50 "RT" "u@x.com").2.2 =
      [{ kind := "password_reset", email := baseAcct.email, token := "RT",
         name := baseAcct.first_name ++ " " ++ baseAcct.last_name }] := by
  have h := C9_forgot_password_enumeration_safe [baseAcct] 50 "RT"
  have hidx : [baseAcct][0]? = some baseAcct := rfl
  have hfe : get_user_by_email [baseAcct] "u@x.com" = some baseAcct := by decide
  have hb := h.2.2 "u@x.com" baseAcct 0 hidx hfe
  exact ⟨h.1 "nobody@x.com" "u@x.com", ⟨hidx, hfe⟩, hb.1, hb.2⟩

theorem activate_account_of_none (db : Db) (now : Nat) (t : String)
    (h : get_user_by_activation_token db now t = none) :
    activate_account db now t =
      (Except.error (HErr.badRequest ("Invalid or expired activation token")),
       db) := by
  unfold activate_account
  rw [h]

theorem getElem_opt_of_mem {α : Type} (l : List α) (a : α) (h : a ∈ l) :
    ∃ i : Nat, l[i]? = some a := by
  induction l with
  | nil => cases h
  | cons x t ih =>
    cases h with
    | head => exact ⟨0, by simp⟩
    | tail _ hmem =>
      obtain ⟨i, hi⟩ := ih hmem
      exact ⟨i + 1, by simpa using hi⟩

/-- C4: with a valid non-expired activation secret held by exactly
one account, the first Activate succeeds, sets `is_active` and clears
the stored secret and its expiry — and a second Activate with the
same secret, at any later instant, fails InvalidOrExpiredToken,
because no account holds the (now cleared) secret any more. -/
theorem C4_activation_single_use (db : Db) (now : Nat) (t : String)
    (u : Account) (hstrip : pyStrip t = t)
    (hlookup : get_user_by_activation_token db now t = some u)
    (huniq : ∀ v ∈ db, v.activation_token = some t → v = u) :
    (activate_account db now t).1 =
      Except.ok ("Account activated successfully. You can now log in.", u.id) ∧
    (∃ (i : Nat) (v : Account), (activate_account db now t).2[i]? = some v ∧
      v.id = u.id ∧ v.is_active = true ∧ v.activation_token = none ∧
      v.activation_token_expires = none) ∧
    (∀ now2, (activate_account (activate_account db now t).2 now2 t).1 =
      Except.error (HErr.badRequest ("Invalid or expired activation token"))) := by
  have hmem : u ∈ db := by
    have hl := hlookup
    unfold get_user_by_activation_token at hl
    dsimp only at hl
    rw [hstrip] at hl
    cases hf : db.find? (fun v => v.activation_token == some t) with
    | none => rw [hf] at hl; cases hl
    | some m =>
      rw [hf] at hl
      dsimp only at hl
      have hmu : m = u := by
        cases he : m.activation_token_expires with
        | none => rw [he] at hl; cases hl; rfl
        | some e =>
          rw [he] at hl
          dsimp only at hl
          by_cases hexp : e < now
          · rw [if_pos hexp] at hl; cases hl
          · rw [if_neg hexp] at hl; cases hl; rfl
      exact hmu ▸ List.mem_of_find?_eq_some hf
  have hdb2 : (activate_account db now t).2 = (activate_user db now u.id).2 := by
    unfold activate_account
    rw [hlookup]
  have h1 : (activate_account db now t).1 =
      Except.ok ("Account activated successfully. You can now log in.", u.id) := by
    unfold activate_account
    rw [hlookup]
  refine ⟨h1, ?_, ?_⟩
  · obtain ⟨i, hidx⟩ := getElem_opt_of_mem db u hmem
    refine ⟨i, { u with is_active := true, activation_token := none,
                        activation_token_expires := none,
                        updated_at := now }, ?_, rfl, rfl, rfl, rfl⟩
    rw [hdb2]
    unfold activate_user
    rw [update_user_snd_getElem, hidx]
    simp
  · intro now2
    have hnone : get_user_by_activation_token (activate_account db now t).2
        now2 t = none := by
      unfold get_user_by_activation_token
      dsimp only
      rw [hstrip]
      have hfn : ((activate_account db now t).2).find?
          (fun v => v.activation_token == some t) = none := by
        rw [List.find?_eq_none]
        intro x hx
        rw [hdb2] at hx
        unfold activate_user update_user at hx
        simp only [List.mem_map] at hx
        obtain ⟨y, hy, hxy⟩ := hx
        by_cases hid : (y.id == u.id) = true
        · rw [if_pos hid] at hxy
          subst hxy
          simp
        · rw [if_neg hid] at hxy
          subst hxy
          simp only [beq_iff_eq]
          intro htok
          exact hid (by rw [huniq y hy htok]; exact beq_self_eq_true u.id)
      rw [hfn]
    rw [activate_account_of_none _ now2 t hnone]

/-- Witness for C4: the concrete unactivated account holding secret
TOK (expiry 500) is activated at instant 100; re-activating its state
with TOK at instant 101 fails as invalid. -/
theorem C4_activation_single_use_witness :
    (pyStrip "TOK" = "TOK" ∧
     get_user_by_activation_token [activAcct] 100 "TOK" = some activAcct ∧
     (∀ v ∈ ([activAcct] : Db), v.activation_token = some ("TOK") →
       v = activAcct)) ∧
    (activate_account [activAcct] 100 "TOK").1 =
      Except.ok ("Account activated successfully. You can now log in.",
        activAcct.id) ∧
    (∃ (i : Nat) (v : Account),
      (activate_account [activAcct] 100 "TOK").2[i]? = some v ∧
      v.id = activAcct.id ∧ v.is_active = true ∧ v.activation_token = none ∧
      v.activation_token_expires = none) ∧
    (activate_account (activate_account [activAcct] 100 "TOK").2 101 "TOK").1 =
      Except.error (HErr.badRequest ("Invalid or expired activation token")) := by
  have h := C4_activation_single_use [activAcct] 100 "TOK" activAcct
    (by decide) (by decide) (by decide)
  exact ⟨⟨by decide, by decide, by decide⟩, h.1, h.2.1, h.2.2 101⟩

/-! ### The counter invariant is preserved by every operation -/

theorem counterInv_update (db : Db) (now uid : Nat) (f : Account → Account)
    (hf : ∀ u ∈ db, (u.is_locked = false → u.failed_login_attempts < 3) →
      ((f u).is_locked = false → (f u).failed_login_attempts < 3))
    (h : CounterInv db) : CounterInv (update_user db now uid f).2 := by
  intro x hx
  unfold update_user at hx
  simp only [List.mem_map] at hx
  obtain ⟨y, hy, hxy⟩ := hx
  by_cases hid : (y.id == uid) = true
  · rw [if_pos hid] at hxy
    subst hxy
    intro hl
    exact hf y hy (h y hy) hl
  · rw [if_neg hid] at hxy
    subst hxy
    exact h y hy

theorem counterInv_append_one (db : Db) (doc : Account)
    (hdoc : doc.is_locked = false → doc.failed_login_attempts < 3)
    (h : CounterInv db) : CounterInv (db ++ [doc]) := by
  intro x hx
  cases List.mem_append.mp hx with
  | inl hmem => exact h x hmem
  | inr hmem =>
    rw [List.mem_singleton] at hmem
    subst hmem
    exact hdoc

theorem increment_counterInv (db : Db) (now uid : Nat) (h : CounterInv db) :
    CounterInv (increment_failed_login_attempts db now uid).2 := by
  unfold increment_failed_login_attempts
  cases hg : get_user_by_id db uid with
  | none => exact h
  | some user =>
    dsimp only
    apply counterInv_update db now uid _ _ h
    intro u _ _ hl
    dsimp only at hl ⊢
    by_cases h3 : user.failed_login_attempts + 1 ≥ 3
    · rw [if_pos h3] at hl
      cases hl
    · omega

theorem login_counterInv (s : Settings) (db : Db) (now : Nat)
    (email password : String) (h : CounterInv db) :
    CounterInv (login s db now email password).2 := by
  unfold login
  cases hfe : get_user_by_email db email with
  | none => exact h
  | some user =>
    dsimp only
    split
    · exact h
    · split
      · exact h
      · cases hv : verify_password password user.hashed_password with
        | error e => exact h
        | ok b =>
          cases b with
          | false =>
            dsimp only
            split
            · exact increment_counterInv db now user.id h
            · exact increment_counterInv db now user.id h
          | true =>
            apply counterInv_update db now user.id _ _ h
            intro u _ _ _
            show 0 < 3
            omega

theorem activate_counterInv (db : Db) (now : Nat) (token : String)
    (h : CounterInv db) : CounterInv (activate_account db now token).2 := by
  unfold activate_account
  cases hg : get_user_by_activation_token db now token with
  | none => exact h
  | some user =>
    apply counterInv_update db now user.id _ _ h
    intro u _ hu hl
    exact hu hl

theorem register_counterInv (db : Db) (now salt new_id : Nat)
    (atok first last email phone password : String) (dob : Nat)
    (h : CounterInv db) :
    CounterInv
      (register db now salt new_id atok first last email phone password dob).2.1 := by
  unfold register
  cases h1 : get_user_by_email db email with
  | some u => exact h
  | none =>
    cases h2 : get_user_by_phone db phone with
    | some u => exact h
    | none =>
      dsimp only [set_activation_token]
      apply counterInv_update _ now new_id _ _
        (counterInv_append_one db _ (fun _ => (by omega : (0 : Nat) < 3)) h)
      intro u _ hu hl
      exact hu hl

theorem update_password_counterInv (db : Db) (now uid : Nat) (d : Digest)
    (h : CounterInv db) : CounterInv (update_password db now uid d).2 := by
  unfold update_password
  cases hg : get_user_by_id db uid with
  | none => exact h
  | some user =>
    dsimp only
    apply counterInv_update db now uid _ _ h
    intro u _ hu hl
    exact hu hl

theorem change_password_counterInv (db : Db) (now salt : Nat) (cu : Account)
    (cur new : String) (h : CounterInv db) :
    CounterInv (change_password db now salt cu cur new).2 := by
  unfold change_password
  cases hv : verify_password cur cu.hashed_password with
  | error e => exact h
  | ok b =>
    cases b with
    | false => exact h
    | true =>
      dsimp only
      split
      · exact h
      · split
        · exact update_password_counterInv db now cu.id _ h
        · exact update_password_counterInv db now cu.id _ h

theorem change_password_route_counterInv (s : Settings) (db : Db)
    (now salt : Nat) (token : Token) (cur new : String) (h : CounterInv db) :
    CounterInv (change_password_route s db now salt token cur new).2 := by
  unfold change_password_route
  cases hu : get_current_user s db now token with
  | error e => exact h
  | ok cu => exact change_password_counterInv db now salt cu cur new h

theorem forgot_counterInv (db : Db) (now : Nat) (rtok email : String)
    (h : CounterInv db) : CounterInv (forgot_password db now rtok email).2.1 := by
  unfold forgot_password
  cases hfe : get_user_by_email db email with
  | none => exact h
  | some user =>
    dsimp only [set_reset_password_token]
    apply counterInv_update db now user.id _ _ h
    intro u _ hu hl
    exact hu hl

theorem reset_password_counterInv (db : Db) (now salt : Nat)
    (token new : String) (h : CounterInv db) :
    CounterInv (reset_password db now salt token new).2 := by
  unfold reset_password
  cases hg : get_user_by_reset_token db now token with
  | none => exact h
  | some user =>
    dsimp only
    split
    · exact h
    · split
      · exact update_password_counterInv db now user.id _ h
      · dsimp only [clear_reset_password_token]
        apply counterInv_update _ now user.id _ _
          (update_password_counterInv db now user.id _ h)
        intro u _ hu hl
        exact hu hl

theorem unlock_counterInv (db : Db) (now uid : Nat) (h : CounterInv db) :
    CounterInv (unlock_user_account db now uid).2 := by
  unfold unlock_user_account
  apply counterInv_update db now uid _ _ h
  intro u _ _ _
  show 0 < 3
  omega

/-- Every operation preserves the counter invariant: an unlocked
account never reaches 3 recorded failures. -/
theorem stepDb_counterInv (s : Settings) (db : Db) (op : Op)
    (h : CounterInv db) : CounterInv (stepDb s db op) := by
  cases op with
  | opRegister now salt new_id atok first last email phone password dob =>
    exact register_counterInv db now salt new_id atok first last email phone
      password dob h
  | opActivate now token => exact activate_counterInv db now token h
  | opLogin now email password => exact login_counterInv s db now email password h
  | opRefresh now token =>
    show CounterInv (refresh_token_route s db now token).2
    rw [refresh_db_unchanged]
    exact h
  | opChangePassword now salt token cur new =>
    exact change_password_route_counterInv s db now salt token cur new h
  | opForgotPassword now rtok email => exact forgot_counterInv db now rtok email h
  | opResetPassword now salt token new =>
    exact reset_password_counterInv db now salt token new h
  | opUnlock now uid => exact unlock_counterInv db now uid h

theorem login_wrong_password_eq (s : Settings) (db : Db) (now : Nat)
    (email password : String) (u : Account)
    (hfe : get_user_by_email db email = some u)
    (hl : u.is_locked = false) (ha : u.is_active = true)
    (hv : verify_password password u.hashed_password = Except.ok false) :
    (login s db now email password).2 =
      (increment_failed_login_attempts db now u.id).2 := by
  unfold login
  rw [hfe]
  dsimp only
  rw [if_neg (by simp [hl]), if_neg (by simp [ha]), hv]
  dsimp only
  split <;> rfl

theorem increment_at_index (db : Db) (now : Nat) (i : Nat) (u : Account)
    (hids : (db.map Account.id).Nodup) (hidx : db[i]? = some u) :
    (increment_failed_login_attempts db now u.id).2[i]? =
      some { u with failed_login_attempts := u.failed_login_attempts + 1,
                    last_failed_login := some now,
                    is_locked := if u.failed_login_attempts + 1 ≥ 3 then true
                                 else u.is_locked,
                    updated_at := now } := by
  have hg := get_user_by_id_of_nodup db hids i u hidx
  unfold increment_failed_login_attempts
  rw [hg]
  dsimp only
  rw [update_user_snd_getElem, hidx]
  simp

/-- C2: on a state satisfying the counter invariant (every unlocked
account has fewer than 3 recorded failures — preserved by every
operation, last conjunct), a wrong-password login on an active,
unlocked account increments `failed_login_attempts`, records
`last_failed_login`, and — in the same state update — sets
`is_locked` exactly when the new counter value reaches 3; a login
against a locked account, with any password (correct or not), fails
AccountLocked without touching the store; no operation other than the
explicit unlock ever clears a set `is_locked` flag; the unlock
operation clears the flag and resets the counter; and every
operation preserves the invariant. -/
theorem C2_lockout_state_machine (s : Settings) (db : Db) (now : Nat)
    (email password : String) (u : Account) (i : Nat)
    (hids : (db.map Account.id).Nodup)
    (hfe : get_user_by_email db email = some u)
    (hidx : db[i]? = some u) (hinv : CounterInv db) :
    (u.is_locked = false → u.is_active = true →
      verify_password password u.hashed_password = Except.ok false →
      ∃ v : Account, (login s db now email password).2[i]? = some v ∧
        v.failed_login_attempts = u.failed_login_attempts + 1 ∧
        v.last_failed_login = some now ∧
        (v.is_locked = true ↔ u.failed_login_attempts + 1 = 3)) ∧
    (u.is_locked = true →
      (login s db now email password).1 =
        Except.error (HErr.forbidden ("Account is locked due to multiple failed login attempts. Please contact support.")) ∧
      (login s db now email password).2 = db) ∧
    (∀ op : Op, (∀ (n uid : Nat), op ≠ Op.opUnlock n uid) →
      ∀ (j : Nat) (a b : Account),
        db[j]? = some a → (stepDb s db op)[j]? = some b →
        a.is_locked = true → b.is_locked = true) ∧
    (∃ w : Account, (unlock_user_account db now u.id).2[i]? = some w ∧
      w.is_locked = false ∧ w.failed_login_attempts = 0 ∧
      w.last_failed_login = none) ∧
    (∀ op : Op, CounterInv (stepDb s db op)) := by
  refine ⟨?_, ?_, ?_, ?_, fun op => stepDb_counterInv s db op hinv⟩
  · intro hl ha hv
    have hlt : u.failed_login_attempts < 3 :=
      hinv u (mem_of_getElem_opt db i u hidx) hl
    rw [login_wrong_password_eq s db now email password u hfe hl ha hv]
    refine ⟨_, increment_at_index db now i u hids hidx, rfl, rfl, ?_⟩
    show (if u.failed_login_attempts + 1 ≥ 3 then true else u.is_locked) =
      true ↔ u.failed_login_attempts + 1 = 3
    by_cases h3 : u.failed_login_attempts + 1 ≥ 3
    · rw [if_pos h3]
      constructor
      · intro _; omega
      · intro _; rfl
    · rw [if_neg h3, hl]
      constructor
      · intro hc; cases hc
      · intro hc; omega
  · intro hl
    unfold login
    rw [hfe]
    dsimp only
    rw [if_pos hl]
    exact ⟨rfl, rfl⟩
  · intro op hop j a b hja hjb hab
    exact stepDb_lockPreserved s db op hop j a b hja hjb hab
  · have hval : (unlock_user_account db now u.id).2[i]? =
        some { u with is_locked := false,
                      failed_login_attempts := 0,
                      last_failed_login := none,
                      updated_at := now } := by
      unfold unlock_user_account
      rw [update_user_snd_getElem, hidx]
      simp
    exact ⟨_, hval, rfl, rfl, rfl⟩

/-- Witness for C2: the base account (counter 0, unlocked, active) at
a wrong-password login at instant 7 moves to counter 1, not locked;
and its unlock instance resets flag and counter. -/
theorem C2_lockout_state_machine_witness :
    ((([baseAcct] : Db).map Account.id).Nodup ∧
     get_user_by_email [baseAcct] "u@x.com" = some baseAcct ∧
     ([baseAcct] : Db)[0]? = some baseAcct ∧
     baseAcct.is_locked = false ∧ baseAcct.is_active = true ∧
     verify_password "wrong" baseAcct.hashed_password = Except.ok false ∧
     CounterInv [baseAcct]) ∧
    (∃ v : Account,
      (login exSettings [baseAcct] 7 "u@x.com" "wrong").2[0]? = some v ∧
      v.failed_login_attempts = baseAcct.failed_login_attempts + 1 ∧
      v.last_failed_login = some 7 ∧
      (v.is_locked = true ↔ baseAcct.failed_login_attempts + 1 = 3)) ∧
    (∃ w : Account, (unlock_user_account [baseAcct] 7 baseAcct.id).2[0]? =
        some w ∧
      w.is_locked = false ∧ w.failed_login_attempts = 0 ∧
      w.last_failed_login = none) := by
  have h := C2_lockout_state_machine exSettings [baseAcct] 7 "u@x.com" "wrong"
    baseAcct 0 (by decide) (by decide) (by decide) (by decide)
  exact ⟨⟨by decide, by decide, by decide, rfl, rfl, by decide, by decide⟩,
    h.1 rfl rfl (by decide), h.2.2.2.1⟩

end AccountService
